import Mathlib

/-!
Verification of the ninja CLI driver (`src/ninja.cc`) against its
natural-language specification.

The development shallowly embeds the driver's logic:
* the C library functions `strtol` (base 10) and `atoi` used by option
  parsing are modelled over `Int` (argument strings are short, so overflow
  of the C `long` is not reachable on the inputs the claims concern);
* the `getopt` switch in `main` becomes `handleOption` over an explicit
  configuration record;
* `GuessParallelism` is parameterised by the processor count the platform
  API reports (the platform probe itself is I/O);
* the post-option part of `main` (parse manifest / run tool / open build
  log / rebuild manifest / run build, with the `reload:` label and the
  `rebuilt_manifest` flag) becomes `ninjaMain`, an event-trace semantics
  parameterised by oracles for the outcomes of the external collaborators
  (parser, filesystem, builder), which are outside this translation unit;
* `CollectTargetsFromArgs` and `RunBuild` are embedded over an abstract
  `StateE` whose lookup / spellcheck / out-edge structure stands for the
  graph `State` (defined outside this translation unit).
-/

namespace Ninja

/-- Is `c` one of the characters C's `isspace` accepts (space, tab,
newline, vertical tab, form feed, carriage return)? -/
def isSpaceChar (c : Char) : Bool :=
  c == ' ' || c == '\t' || c == '\n' || c == Char.ofNat 11 ||
    c == Char.ofNat 12 || c == '\r'

/-- Drop the leading `isspace` characters, as `strtol` does. -/
def skipWs : List Char → List Char
  | [] => []
  | c :: t => if isSpaceChar c then skipWs t else c :: t

/-- Consume a maximal run of decimal digits, accumulating their value;
returns the value together with the unconsumed remainder. -/
def digitsVal : List Char → Nat → Nat × List Char
  | [], acc => (acc, [])
  | c :: t, acc =>
    if c.isDigit then digitsVal t (acc * 10 + (c.toNat - '0'.toNat))
    else (acc, c :: t)

/-- C's `strtol(s, &end, 10)`: skip whitespace, read an optional sign and
a run of decimal digits.  Returns the value and the string starting at
`end`.  When no digits are found the value is `0` and `end` is reset to
the start of the whole string, exactly as the C standard requires. -/
def strtol10 (s : String) : Int × String :=
  let cs := skipWs s.toList
  let signAndRest : Bool × List Char :=
    match cs with
    | '-' :: t => (true, t)
    | '+' :: t => (false, t)
    | _ => (false, cs)
  match signAndRest.2 with
  | c :: t =>
    if c.isDigit then
      let vr := digitsVal (c :: t) 0
      ((if signAndRest.1 then -(vr.1 : Int) else (vr.1 : Int)), String.mk vr.2)
    else (0, s)
  | [] => (0, s)

/-- C's `atoi`, as used for the `-j` argument: `strtol` with the end
pointer discarded, so trailing garbage and the no-digits case are silent. -/
def atoi (s : String) : Int := (strtol10 s).1

/-- `BuildConfig::Verbosity` (the CLI only ever sets `VERBOSE`). -/
inductive Verbosity
  | normal
  | verbose
deriving DecidableEq, Repr

/-- The configuration state mutated by `main`'s option loop: the
`BuildConfig` fields the CLI touches plus the local variables
`input_file`, `tool` and `working_dir`.  `stats` stands for
`g_metrics != NULL` after `-d stats`. -/
structure CLIConfig where
  parallelism : Int
  swallow_failures : Int
  dry_run : Bool
  verbosity : Verbosity
  stats : Bool
  input_file : String
  tool : String
  working_dir : Option String
deriving DecidableEq, Repr

/-- The state of `Globals::config` and `main`'s locals when the option
loop starts.  `parallelism` has just been set from `GuessParallelism()`.
`swallow_failures`' initial value comes from the `BuildConfig`
constructor, which lives outside this translation unit; modelled from the
spec: the keep-going budget defaults to `N = 1` ("stop after first
failure"), i.e. `swallow_failures = 0`. -/
def initialCLIConfig (parallelism : Int) : CLIConfig :=
  { parallelism := parallelism
    swallow_failures := 0
    dry_run := false
    verbosity := Verbosity.normal
    stats := false
    input_file := "build.ninja"
    tool := ""
    working_dir := none }

/-- One result of `getopt_long` inside `main`'s option loop: a recognised
option (with its `optarg` where the option takes one), `-h`/`--help`, or
the `?` that `getopt` yields for an unrecognised flag. -/
inductive OptCase
  | d (arg : String)
  | f (arg : String)
  | j (arg : String)
  | k (arg : String)
  | n
  | v
  | t (arg : String)
  | C (arg : String)
  | h
  | unknown
deriving DecidableEq, Repr

/-- How one iteration of the option loop ends.
`next c`: the `switch` fell through to the next `getopt` call with the
configuration updated to `c`.  `exitUsage code`: `Usage(config)` was
printed and `main` returned `code`.  `exitCode code`: `main` returned
`code` without printing the usage text (the `-d` paths through
`DebugEnable`).  `fatal msg`: `Fatal(msg)` printed `msg` and terminated
the process with a nonzero status before any further work. -/
inductive OptOutcome
  | next (c : CLIConfig)
  | exitUsage (code : Int)
  | exitCode (code : Int)
  | fatal (msg : String)
deriving DecidableEq, Repr

/-- The message `Fatal` receives for a non-numeric `-k` argument. -/
def kNotNumericMsg : String := "-k parameter not numeric; did you mean -k0?"

/-- The body of the `switch (opt)` in `main`, one `getopt` result at a
time.  `-d` routes through `DebugEnable` (`list` prints the mode list and
returns 1; `stats` installs the metrics sink; anything else prints an
unknown-setting message and returns 1).  `-j` stores `atoi(optarg)`
unconditionally.  `-k` parses with `strtol` and `Fatal`s when the end
pointer is not at the terminator, otherwise stores `value - 1` in
`swallow_failures`.  `-h` and unknown flags print the usage text and
return 1. -/
def handleOption (c : CLIConfig) : OptCase → OptOutcome
  | OptCase.d name =>
    if name = "list" then OptOutcome.exitCode 1
    else if name = "stats" then OptOutcome.next { c with stats := true }
    else OptOutcome.exitCode 1
  | OptCase.f file => OptOutcome.next { c with input_file := file }
  | OptCase.j arg => OptOutcome.next { c with parallelism := atoi arg }
  | OptCase.k arg =>
    let vr := strtol10 arg
    if vr.2 ≠ "" then OptOutcome.fatal kNotNumericMsg
    else OptOutcome.next { c with swallow_failures := vr.1 - 1 }
  | OptCase.n => OptOutcome.next { c with dry_run := true }
  | OptCase.v => OptOutcome.next { c with verbosity := Verbosity.verbose }
  | OptCase.t toolname => OptOutcome.next { c with tool := toolname }
  | OptCase.C dir => OptOutcome.next { c with working_dir := some dir }
  | OptCase.h => OptOutcome.exitUsage 1
  | OptCase.unknown => OptOutcome.exitUsage 1

/-- `main`'s option loop: `while (tool.empty() && (opt = getopt_long(...))
!= -1) switch (opt) ...`.  The loop stops as soon as `tool` is non-empty
(the remaining words are handed to the subtool) or an option handler
exits the process / returns from `main`. -/
def parseOptions (c : CLIConfig) : List OptCase → OptOutcome
  | [] => OptOutcome.next c
  | o :: os =>
    if c.tool ≠ "" then OptOutcome.next c
    else
      match handleOption c o with
      | OptOutcome.next c' => parseOptions c' os
      | outcome => outcome

/-- `GuessParallelism`, parameterised by the processor count the platform
probe reported: 0 or 1 processors give 2 jobs, 2 processors give 3 jobs,
anything else gives `processors + 2`. -/
def GuessParallelism (processors : Int) : Int :=
  if processors = 0 ∨ processors = 1 then 2
  else if processors = 2 then 3
  else processors + 2

/-- The graph `State` as the CLI observes it, with nodes and edges named
by stable indices (the arena design): `lookupNode` is
`State::LookupNode` over canonical paths, `outEdges` lists the consumer
edge ids of a node in insertion order (`Node::out_edges()`), `edgeOutputs`
lists an edge's output node ids (`Edge::outputs_`), `defaults` is
`State::DefaultNodes` (which can fail with an error string), and
`spellcheck` is `State::SpellcheckNode`, returning the suggested node's
path when a near match exists.  All of these are implemented outside this
translation unit. -/
structure StateE where
  lookupNode : String → Option Nat
  outEdges : Nat → List Nat
  edgeOutputs : Nat → List Nat
  defaults : Except String (List Nat)
  spellcheck : String → Option String

/-- The suffix `CollectTargetsFromArgs` appends to an unknown-target
error: the spelling suggestion when `SpellcheckNode` found one, nothing
otherwise. -/
def suggestionText (st : StateE) (path : String) : String :=
  match st.spellcheck path with
  | some s => ", did you mean '" ++ s ++ "'?"
  | none => ""

/-- The per-argument body of `CollectTargetsFromArgs`: canonicalize the
argument (`canon` stands for `CanonicalizePath`, implemented outside this
translation unit), strip a trailing `^` (recording `first_dependent`),
look the path up, and either return the node, chase the first out edge's
first output for `^`, or fail.  The `Fatal("edge has no outputs")` branch
is modelled as an error with that message. -/
def collectTarget (st : StateE) (canon : String → Except String String)
    (arg : String) : Except String Nat :=
  match canon arg with
  | Except.error e => Except.error e
  | Except.ok path0 =>
    let first_dependent := (path0 != "") && (path0.back == '^')
    let path := if first_dependent then path0.dropRight 1 else path0
    match st.lookupNode path with
    | some node =>
      if first_dependent then
        match st.outEdges node with
        | [] => Except.error ("'" ++ path ++ "' has no out edge")
        | e :: _ =>
          match st.edgeOutputs e with
          | [] => Except.error "edge has no outputs"
          | o :: _ => Except.ok o
      else Except.ok node
    | none =>
      Except.error ("unknown target '" ++ path ++ "'" ++ suggestionText st path)

/-- `CollectTargetsFromArgs`: no arguments means the manifest's default
nodes; otherwise each argument is resolved in order and the first failure
aborts the collection. -/
def collectTargetsFromArgs (st : StateE) (canon : String → Except String String) :
    List String → Except String (List Nat)
  | [] => st.defaults
  | a :: as =>
    match collectTarget st canon a with
    | Except.error e => Except.error e
    | Except.ok n =>
      match collectTargetsFromArgs st canon as with
      | Except.error e => Except.error e
      | Except.ok ns => Except.ok (n :: ns)

/-- The `Builder` as `RunBuild` drives it, as an outcome oracle
(`build.cc` is outside this translation unit).  `addTarget n` is
`Builder::AddTarget`: `Except.error e` stands for a `false` return with a
non-empty error string, `Except.ok b` for a return of `b` with the error
string left empty (`AddTarget` returning `false` with an empty error is
the already-up-to-date, not-really-an-error case).  `alreadyUpToDate` is
`Builder::AlreadyUpToDate()` after all targets were added, and `build` is
`Builder::Build`. -/
structure BuilderOracle where
  addTarget : Nat → Except String Bool
  alreadyUpToDate : Bool
  build : Except String Unit

/-- The `AddTarget` loop inside `RunBuild`: a non-empty error aborts with
exit 1; a `false` return with an empty error is skipped silently. -/
def addTargetsLoop (b : BuilderOracle) : List Nat → Except String Unit
  | [] => Except.ok ()
  | t :: ts =>
    match b.addTarget t with
    | Except.error e => Except.error e
    | Except.ok _ => addTargetsLoop b ts

/-- `RunBuild`: collect the targets, add them to a fresh `Builder`, then
either report "no work to do" (exit 0), run the build and report
"build stopped" on failure (exit 1), or exit 0.  The result pairs `main`'s
return value with the diagnostics printed (error strings are shown via
`Error`, which prefixes and writes to stderr; only their text is modelled). -/
def RunBuild (st : StateE) (canon : String → Except String String)
    (args : List String) (b : BuilderOracle) : Int × List String :=
  match collectTargetsFromArgs st canon args with
  | Except.error e => (1, [e])
  | Except.ok targets =>
    match addTargetsLoop b targets with
    | Except.error e => (1, [e])
    | Except.ok _ =>
      if b.alreadyUpToDate then (0, ["ninja: no work to do."])
      else
        match b.build with
        | Except.error e => (1, ["ninja: build stopped: " ++ e ++ "."])
        | Except.ok _ => (0, [])

/-- Result of `MakeDir(build_dir)`: success, failure with `errno ==
EEXIST`, or failure with any other `errno` (whose `strerror` text is
carried). -/
inductive MkdirResult
  | ok
  | errExist
  | errOther (msg : String)
deriving DecidableEq, Repr

/-- The build-log path setup in `main`: `log_path` starts as
`".ninja_log"`; when the manifest's top-level `builddir` binding is
non-empty, `MakeDir(build_dir)` is attempted (a failure with
`errno != EEXIST` is fatal) and the log path becomes
`build_dir + "/" + ".ninja_log"`. -/
def logPathSetup (build_dir : String) (mkdir : MkdirResult) : Except String String :=
  let kLogPath := ".ninja_log"
  if build_dir = "" then Except.ok kLogPath
  else
    match mkdir with
    | MkdirResult.errOther m =>
      Except.error ("creating build directory " ++ build_dir ++ ": " ++ m)
    | _ => Except.ok (build_dir ++ "/" ++ kLogPath)

/-- Externally visible actions of the post-option part of `main`:
`parse i` is the `i`-th `ManifestParser::Load` (iteration 0 before any
reload, 1 after), `enterTool` is the dispatch into `RunTool`, `loadLog p`
and `openLog p` are `BuildLog::Load` / `BuildLog::OpenForWrite` at path
`p`, `rebuildManifest` is a call to `RebuildManifest`, `reloadState` is
the `ResetState(); goto reload;` pair, and `runBuild` is the call to
`RunBuild`. -/
inductive NEvent
  | parse (i : Nat)
  | enterTool
  | loadLog (p : String)
  | openLog (p : String)
  | rebuildManifest
  | reloadState
  | runBuild
deriving DecidableEq, Repr

/-- The outcome of `RebuildManifest` as `main` distinguishes it: `true`
(the manifest was rebuilt), or `false` with an empty error (nothing to
do / no manifest node), or `false` with a non-empty error. -/
inductive RebuildOutcome
  | rebuilt
  | upToDate
  | failed (e : String)
deriving DecidableEq, Repr

/-- Oracles for everything `main` consults after option parsing, indexed
by the reload iteration where the code consults them again after `goto
reload`: manifest parsing (`none` = success), the state's `builddir`
binding, the `MakeDir` result, build-log load and open (`none` =
success), the `RebuildManifest` outcome, and the results of `RunTool`
and `RunBuild`. -/
structure MainEnv where
  parseOk : Nat → Option String
  builddir : Nat → String
  mkdir : Nat → MkdirResult
  loadOk : Nat → Option String
  openOk : Nat → Option String
  rebuild : Nat → RebuildOutcome
  toolResult : Int
  buildResult : Int

/-- The code from the `reload:` label onward as executed when
`rebuilt_manifest` is already `true` (i.e. after the one `goto reload`):
parse, dispatch to the subtool if `-t` was given, set up and open the
build log, and — skipping `RebuildManifest`, since the flag guards it —
run the main build.  Returns the event trace and `main`'s return value. -/
def mainSecondPass (tool : String) (env : MainEnv) (i : Nat) : List NEvent × Int :=
  match env.parseOk i with
  | some _ => ([NEvent.parse i], 1)
  | none =>
    if tool ≠ "" then ([NEvent.parse i, NEvent.enterTool], env.toolResult)
    else
      match logPathSetup (env.builddir i) (env.mkdir i) with
      | Except.error _ => ([NEvent.parse i], 1)
      | Except.ok path =>
        match env.loadOk i with
        | some _ => ([NEvent.parse i, NEvent.loadLog path], 1)
        | none =>
          match env.openOk i with
          | some _ =>
            ([NEvent.parse i, NEvent.loadLog path, NEvent.openLog path], 1)
          | none =>
            ([NEvent.parse i, NEvent.loadLog path, NEvent.openLog path,
              NEvent.runBuild], env.buildResult)

/-- The code from the `reload:` label onward on first entry
(`rebuilt_manifest == false`): identical to `mainSecondPass` except that
`RebuildManifest` runs, and when it reports a rebuild the state is reset
and control returns to `reload:` with `rebuilt_manifest` set — i.e. the
rest of the run is `mainSecondPass` at iteration 1. -/
def ninjaMain (tool : String) (env : MainEnv) : List NEvent × Int :=
  match env.parseOk 0 with
  | some _ => ([NEvent.parse 0], 1)
  | none =>
    if tool ≠ "" then ([NEvent.parse 0, NEvent.enterTool], env.toolResult)
    else
      match logPathSetup (env.builddir 0) (env.mkdir 0) with
      | Except.error _ => ([NEvent.parse 0], 1)
      | Except.ok path =>
        match env.loadOk 0 with
        | some _ => ([NEvent.parse 0, NEvent.loadLog path], 1)
        | none =>
          match env.openOk 0 with
          | some _ =>
            ([NEvent.parse 0, NEvent.loadLog path, NEvent.openLog path], 1)
          | none =>
            match env.rebuild 0 with
            | RebuildOutcome.rebuilt =>
              let rest := mainSecondPass tool env 1
              ([NEvent.parse 0, NEvent.loadLog path, NEvent.openLog path,
                NEvent.rebuildManifest, NEvent.reloadState] ++ rest.1, rest.2)
            | RebuildOutcome.failed _ =>
              ([NEvent.parse 0, NEvent.loadLog path, NEvent.openLog path,
                NEvent.rebuildManifest], 1)
            | RebuildOutcome.upToDate =>
              ([NEvent.parse 0, NEvent.loadLog path, NEvent.openLog path,
                NEvent.rebuildManifest, NEvent.runBuild], env.buildResult)

/-- All of `main` after `GuessParallelism`: run the option loop, then the
reload section with the `tool` the options produced.  An option that
exits (usage, `-d list`, `Fatal`) ends the process before any of the
reload section's events occur. -/
def ninjaMainFull (detected : Int) (opts : List OptCase) (env : MainEnv) :
    List NEvent × Int :=
  match parseOptions (initialCLIConfig (GuessParallelism detected)) opts with
  | OptOutcome.next c => ninjaMain c.tool env
  | OptOutcome.exitUsage code => ([], code)
  | OptOutcome.exitCode code => ([], code)
  | OptOutcome.fatal _ => ([], 1)

/-- Number of `reloadState` events in a trace. -/
def countReloads : List NEvent → Nat
  | [] => 0
  | NEvent.reloadState :: t => countReloads t + 1
  | _ :: t => countReloads t

/-- Number of `rebuildManifest` events in a trace. -/
def countRebuilds : List NEvent → Nat
  | [] => 0
  | NEvent.rebuildManifest :: t => countRebuilds t + 1
  | _ :: t => countRebuilds t

/-! Concrete fixtures used by witness theorems. -/

/-- A tiny concrete graph: node 0 is `foo.c` (consumed by edge 0), node 1
is `foo.o` (edge 0's only output); `foo.x` has a near match `foo.c`. -/
def sampleState : StateE :=
  { lookupNode := fun s =>
      if s = "foo.c" then some 0 else if s = "foo.o" then some 1 else none
    outEdges := fun n => if n = 0 then [0] else []
    edgeOutputs := fun e => if e = 0 then [1] else []
    defaults := Except.ok [1]
    spellcheck := fun s => if s = "foo.x" then some "foo.c" else none }

/-- A canonicalization oracle that accepts every path unchanged. -/
def canonId : String → Except String String := fun s => Except.ok s

/-- A builder for which everything is already up to date. -/
def upToDateBuilder : BuilderOracle :=
  { addTarget := fun _ => Except.ok true
    alreadyUpToDate := true
    build := Except.ok () }

/-- A builder whose build loop fails with "subcommand failed". -/
def failingBuilder : BuilderOracle :=
  { addTarget := fun _ => Except.ok true
    alreadyUpToDate := false
    build := Except.error "subcommand failed" }

/-- An environment where every external step succeeds. -/
def sampleEnv : MainEnv :=
  { parseOk := fun _ => none
    builddir := fun _ => ""
    mkdir := fun _ => MkdirResult.ok
    loadOk := fun _ => none
    openOk := fun _ => none
    rebuild := fun _ => RebuildOutcome.upToDate
    toolResult := 0
    buildResult := 0 }

/-! Claim theorems. -/

/-- C1: the `-k 0` off-by-one.  At the failing input `-k 0` the option
handler stores `0 - 1 = -1` in `swallow_failures` — "tolerate -1
failures" — instead of the unlimited budget the specification requires
for `N < 1`. -/
theorem kOptionZeroPassesThroughMinusOne :
    handleOption (initialCLIConfig 4) (OptCase.k "0") =
      OptOutcome.next { initialCLIConfig 4 with swallow_failures := -1 } := by
  decide

/-- C2 counterexample: with one detected processor the default
parallelism is 2, not `1 + 2`, so "default parallelism equals the
detected CPU count plus 2 for every possible detected CPU count
(including 0, 1, and 2)" is false. -/
theorem guessParallelismOneProcIsNotPlusTwo :
    GuessParallelism 1 ≠ 1 + 2 := by
  decide

/-- C2 (amended): when `-j` is not supplied the default parallelism is
never less than 2 for any nonnegative detected CPU count, equals
`CPU count + 2` only for counts of at least 3, and is 2, 2 and 3 for
counts 0, 1 and 2 respectively. -/
theorem guessParallelismDefaults :
    (∀ p : Int, 0 ≤ p → 2 ≤ GuessParallelism p) ∧
    (∀ p : Int, 3 ≤ p → GuessParallelism p = p + 2) ∧
    GuessParallelism 0 = 2 ∧ GuessParallelism 1 = 2 ∧ GuessParallelism 2 = 3 := by
  refine ⟨?_, ?_, by decide, by decide, by decide⟩
  · intro p hp
    unfold GuessParallelism
    split
    · omega
    · split <;> omega
  · intro p hp
    unfold GuessParallelism
    split
    · omega
    · split <;> omega

/-- C2 witness: the amended claim at the concrete detected counts 5 and 1. -/
theorem guessParallelismDefaults_witness :
    2 ≤ GuessParallelism 5 ∧ GuessParallelism 5 = 5 + 2 ∧ 2 ≤ GuessParallelism 1 :=
  ⟨guessParallelismDefaults.1 5 (by decide), guessParallelismDefaults.2.1 5 (by decide),
    guessParallelismDefaults.1 1 (by decide)⟩

/-- C4 counterexample: an unknown flag prints the usage text but `main`
returns 1, not the exit code 2 the claim states. -/
theorem unknownFlagExitsOneNotTwo :
    handleOption (initialCLIConfig 4) OptCase.unknown = OptOutcome.exitUsage 1 ∧
      (1 : Int) ≠ 2 :=
  ⟨rfl, by decide⟩

/-- C4 (amended): for every unknown command-line flag the program prints
the usage text and exits with code 1 (the same path `-h` takes; no
distinct usage-error code 2 exists in this driver). -/
theorem unknownFlagUsageExitOne :
    ∀ c : CLIConfig, handleOption c OptCase.unknown = OptOutcome.exitUsage 1 :=
  fun _ => rfl

/-- C10: `-j` stores `atoi(optarg)` with no validation — `-j abc` and
`-j 0` silently set parallelism to 0 — while a `-k` argument with
trailing non-numeric characters hits `Fatal` during option parsing, so
the process dies before any of the post-option work (no events, exit 1). -/
theorem jUnvalidatedKFatal :
    ∀ (c : CLIConfig) (s : String) (d : Int) (env : MainEnv),
      handleOption c (OptCase.j s) = OptOutcome.next { c with parallelism := atoi s } ∧
      atoi "abc" = 0 ∧ atoi "0" = 0 ∧
      ((strtol10 s).2 ≠ "" →
        handleOption c (OptCase.k s) = OptOutcome.fatal kNotNumericMsg) ∧
      (strtol10 "abc").2 = "abc" ∧
      ninjaMainFull d [OptCase.k "abc"] env = ([], 1) := by
  intro c s d env
  refine ⟨rfl, by decide, by decide, ?_, by decide, ?_⟩
  · intro hs
    simp only [handleOption]
    rw [if_pos hs]
  · have h : ¬((strtol10 "abc").2 = "") := by decide
    simp [ninjaMainFull, parseOptions, initialCLIConfig, handleOption, h]

/-- C10 witness: the `-k` rejection applied at the concrete argument
`abc`. -/
theorem jUnvalidatedKFatal_witness :
    handleOption (initialCLIConfig 4) (OptCase.k "abc") =
      OptOutcome.fatal kNotNumericMsg :=
  (jUnvalidatedKFatal (initialCLIConfig 4) "abc" 4 sampleEnv).2.2.2.1 (by decide)

/-- C5: a command-line target `path^` whose canonicalized form, with the
`^` stripped, names a known node resolves to the first output of the
first edge consuming that node, and fails with an error naming the path
when the node has no consuming edge. -/
theorem caretTargetResolution :
    ∀ (st : StateE) (canon : String → Except String String) (arg p : String) (n : Nat),
      canon arg = Except.ok p → p ≠ "" → p.back = '^' →
      st.lookupNode (p.dropRight 1) = some n →
      (st.outEdges n = [] →
        collectTarget st canon arg =
          Except.error ("'" ++ p.dropRight 1 ++ "' has no out edge")) ∧
      (∀ e es o os, st.outEdges n = e :: es → st.edgeOutputs e = o :: os →
        collectTarget st canon arg = Except.ok o) := by
  intro st canon arg p n hc hne hback hlook
  have hfd : ((p != "") && (p.back == '^')) = true := by
    simp [bne_iff_ne, beq_iff_eq, hne, hback]
  constructor
  · intro hout
    simp [collectTarget, hc, hfd, hlook, hout]
  · intro e es o os hout houts
    simp [collectTarget, hc, hfd, hlook, hout, houts]

/-- C5 witness: in the sample graph, `foo.c^` resolves to node 1
(`foo.o`), the first output of the only edge consuming `foo.c`. -/
theorem caretTargetResolution_witness :
    collectTarget sampleState canonId "foo.c^" = Except.ok 1 :=
  (caretTargetResolution sampleState canonId "foo.c^" "foo.c^" 0 rfl (by decide)
      (by decide) (by decide)).2 0 [] 1 [] rfl rfl

/-- C6: a command-line target whose canonicalized path does not resolve
to a node makes `RunBuild` fail with exit code 1 and an
`unknown target '<path>'` diagnostic whose suffix is the nearest-match
suggestion whenever the spellchecker returns one. -/
theorem unknownTargetFatalWithSuggestion :
    ∀ (st : StateE) (canon : String → Except String String) (arg p : String)
      (b : BuilderOracle),
      canon arg = Except.ok p → ((p != "") && (p.back == '^')) = false →
      st.lookupNode p = none →
      RunBuild st canon [arg] b =
        (1, ["unknown target '" ++ p ++ "'" ++ suggestionText st p]) ∧
      (∀ s, st.spellcheck p = some s →
        suggestionText st p = ", did you mean '" ++ s ++ "'?") := by
  intro st canon arg p b hc hfd hlook
  constructor
  · simp [RunBuild, collectTargetsFromArgs, collectTarget, hc, hfd, hlook]
  · intro s hs
    simp [suggestionText, hs]

/-- C6 witness: the unknown target `foo.x` is rejected with exit 1 and
its diagnostic carries the suggestion `foo.c`. -/
theorem unknownTargetFatalWithSuggestion_witness :
    RunBuild sampleState canonId ["foo.x"] upToDateBuilder =
      (1, ["unknown target '" ++ "foo.x" ++ "'" ++ suggestionText sampleState "foo.x"]) ∧
    suggestionText sampleState "foo.x" = ", did you mean '" ++ "foo.c" ++ "'?" :=
  ⟨(unknownTargetFatalWithSuggestion sampleState canonId "foo.x" "foo.x" upToDateBuilder
      rfl (by decide) (by decide)).1,
   (unknownTargetFatalWithSuggestion sampleState canonId "foo.x" "foo.x" upToDateBuilder
      rfl (by decide) (by decide)).2 "foo.c" rfl⟩

/-- C7: once the requested targets were collected and added without a
fatal error, an already-up-to-date builder makes `RunBuild` print
"ninja: no work to do." and return 0, and a failing build loop makes it
print "ninja: build stopped: <reason>." and return 1. -/
theorem runBuildFinalMessages :
    ∀ (st : StateE) (canon : String → Except String String) (args : List String)
      (b : BuilderOracle) (ts : List Nat),
      collectTargetsFromArgs st canon args = Except.ok ts →
      addTargetsLoop b ts = Except.ok () →
      (b.alreadyUpToDate = true →
        RunBuild st canon args b = (0, ["ninja: no work to do."])) ∧
      (∀ e, b.alreadyUpToDate = false → b.build = Except.error e →
        RunBuild st canon args b = (1, ["ninja: build stopped: " ++ e ++ "."])) := by
  intro st canon args b ts hc ha
  constructor
  · intro hu
    simp [RunBuild, hc, ha, hu]
  · intro e hu hb
    simp [RunBuild, hc, ha, hu, hb]

/-- C7 witness: the empty-plan and failed-build messages at concrete
builders over the sample graph's default target. -/
theorem runBuildFinalMessages_witness :
    RunBuild sampleState canonId [] upToDateBuilder = (0, ["ninja: no work to do."]) ∧
    RunBuild sampleState canonId [] failingBuilder =
      (1, ["ninja: build stopped: " ++ "subcommand failed" ++ "."]) :=
  ⟨(runBuildFinalMessages sampleState canonId [] upToDateBuilder [1] rfl rfl).1 rfl,
   (runBuildFinalMessages sampleState canonId [] failingBuilder [1] rfl rfl).2
      "subcommand failed" rfl rfl⟩

/-- C8: the build log lives at `.ninja_log` in the current directory when
the manifest's top-level `builddir` is empty, and at
`<builddir>/.ninja_log` otherwise; the directory is made on demand and a
`MakeDir` failure with `errno == EEXIST` is not an error. -/
theorem buildLogPathSetup :
    ∀ (d : String) (m : MkdirResult),
      logPathSetup "" m = Except.ok ".ninja_log" ∧
      (d ≠ "" →
        logPathSetup d MkdirResult.ok = Except.ok (d ++ "/" ++ ".ninja_log") ∧
        logPathSetup d MkdirResult.errExist = Except.ok (d ++ "/" ++ ".ninja_log")) := by
  intro d m
  constructor
  · simp [logPathSetup]
  · intro hd
    constructor <;> simp [logPathSetup, hd]

/-- C8 witness: with `builddir = out` an already-existing directory still
yields the log path `out/.ninja_log`. -/
theorem buildLogPathSetup_witness :
    logPathSetup "out" MkdirResult.errExist = Except.ok ("out" ++ "/" ++ ".ninja_log") :=
  ((buildLogPathSetup "out" MkdirResult.ok).2 (by decide)).2

/-- `countReloads` distributes over list append. -/
theorem countReloads_append (a b : List NEvent) :
    countReloads (a ++ b) = countReloads a + countReloads b := by
  induction a with
  | nil => simp [countReloads]
  | cons x t ih =>
    cases x <;> simp [countReloads, ih]
    omega

/-- `countRebuilds` distributes over list append. -/
theorem countRebuilds_append (a b : List NEvent) :
    countRebuilds (a ++ b) = countRebuilds a + countRebuilds b := by
  induction a with
  | nil => simp [countRebuilds]
  | cons x t ih =>
    cases x <;> simp [countRebuilds, ih]
    omega

/-- After the one reload, the second pass through the `reload:` section
never calls `RebuildManifest` and never reloads again. -/
theorem mainSecondPass_no_rebuild (tool : String) (env : MainEnv) (i : Nat) :
    countRebuilds (mainSecondPass tool env i).1 = 0 ∧
    countReloads (mainSecondPass tool env i).1 = 0 := by
  unfold mainSecondPass
  split
  · simp [countRebuilds, countReloads]
  · split
    · simp [countRebuilds, countReloads]
    · split
      · simp [countRebuilds, countReloads]
      · split
        · simp [countRebuilds, countReloads]
        · split <;> simp [countRebuilds, countReloads]

/-- C3: in any single invocation — whatever the parser, filesystem and
builder oracles report, in particular even when the manifest-regenerating
edge reports itself dirty on every pass — the `ResetState`/re-parse
reload happens at most once and `RebuildManifest` is attempted at most
once, and the pass after the reload goes straight to the main build
without touching `RebuildManifest` again. -/
theorem manifestReloadAtMostOnce :
    ∀ (tool : String) (env : MainEnv),
      countReloads (ninjaMain tool env).1 ≤ 1 ∧
      countRebuilds (ninjaMain tool env).1 ≤ 1 ∧
      (∀ i, countRebuilds (mainSecondPass tool env i).1 = 0 ∧
        countReloads (mainSecondPass tool env i).1 = 0) := by
  intro tool env
  have h1 := mainSecondPass_no_rebuild tool env 1
  refine ⟨?_, ?_, mainSecondPass_no_rebuild tool env⟩ <;>
  · unfold ninjaMain
    split
    · simp [countRebuilds, countReloads]
    · split
      · simp [countRebuilds, countReloads]
      · split
        · simp [countRebuilds, countReloads]
        · split
          · simp [countRebuilds, countReloads]
          · split
            · simp [countRebuilds, countReloads]
            · split <;>
                simp [countRebuilds, countReloads, countReloads_append,
                  countRebuilds_append, h1.1, h1.2]

/-- C9: with a subtool selected by `-t`, a successful manifest parse is
followed immediately by the tool dispatch and `main` returns the tool's
result; the build log is never loaded or opened for write and the
manifest self-rebuild step is never attempted. -/
theorem subtoolModeFrame :
    ∀ (tool : String) (env : MainEnv),
      tool ≠ "" → env.parseOk 0 = none →
      ninjaMain tool env = ([NEvent.parse 0, NEvent.enterTool], env.toolResult) ∧
      (∀ p, NEvent.loadLog p ∉ (ninjaMain tool env).1 ∧
        NEvent.openLog p ∉ (ninjaMain tool env).1) ∧
      NEvent.rebuildManifest ∉ (ninjaMain tool env).1 ∧
      (ninjaMain tool env).2 = env.toolResult := by
  intro tool env ht hp
  have h : ninjaMain tool env = ([NEvent.parse 0, NEvent.enterTool], env.toolResult) := by
    simp [ninjaMain, hp, ht]
  refine ⟨h, ?_, ?_, ?_⟩ <;> simp [h]

/-- C9 witness: running the `clean` subtool in the all-succeeding
environment parses and dispatches only. -/
theorem subtoolModeFrame_witness :
    ninjaMain "clean" sampleEnv = ([NEvent.parse 0, NEvent.enterTool], sampleEnv.toolResult) :=
  (subtoolModeFrame "clean" sampleEnv (by decide) rfl).1

end Ninja
